import Mathlib

/-!
Shallow embedding of `src/webrtc.ts` (norskvideo/webrtc-client): the
`WebRtcClient` signaling state machine (candidate trickling, offer/answer
exchange, Link-header relay-server discovery), the `WhepClient` /
`DuplexClient` track-pairing logic, and the `WhipClient` / `DuplexClient`
`start` behavior.

Modelling conventions:
- JS strings are Lean `String`s; the character-level parsing done with
  JS regexes is implemented over `List Char` with the exact leftmost-match,
  greedy semantics of the two regexes used by the source.
- The asynchronous methods mutate `this`; they are embedded as functions
  from an explicit state to a state.  HTTP requests issued by the client
  are recorded in trace fields (`patches`, `responseErrors`), and thrown
  exceptions in `thrown` (in JS the mutations made before a throw persist,
  which the embedding preserves).
- `sendOffer` suspends at `await` points.  It is embedded in two steps:
  `sendOfferResponse` (the code from the response arriving up to the
  assignment of `this.sessionUrl`, i.e. up to the suspension at
  `await response.text()`), and `sendOfferResume` (reading the body,
  applying the remote description and `sendCachedCandidates`).  Candidate
  events can be delivered between the two, exactly as `icecandidate`
  events can fire while `sendOffer` is suspended.
- `new URL(loc, base)` resolution is abstracted: the session URL is
  modelled as the raw `Location` header value (no claim concerns the
  resolution itself, only whether `sessionUrl` is set and used).
-/

/-- An ICE candidate as used by the source: the `candidate` line,
`sdpMid` and `usernameFragment` fields of `RTCIceCandidate`
(`webrtc.ts` lines 114-117).  A gathering-done notification carries no
candidate and is modelled as `none` at the event level; a candidate whose
`candidate` line is the empty string is falsy in JS (line 34). -/
structure Candidate where
  candidate : String
  sdpMid : String
  usernameFragment : String
deriving DecidableEq, Repr

/-- An `RTCIceServer` descriptor as built by `receiveIceServers`
(`webrtc.ts` line 149): `{ urls: [url] }` plus optional `username`,
`credential` and `credentialType` fields. -/
structure IceServer where
  urls : List String
  username : Option String := none
  credential : Option String := none
  credentialType : Option String := none
deriving DecidableEq, Repr

/-- A trickle request as issued by `sendCandidate` (`webrtc.ts`
lines 109-119): the target URL, HTTP method, `Content-Type` header and
body. -/
structure PatchRequest where
  url : String
  method : String
  contentType : String
  body : String
deriving DecidableEq, Repr

/-- The offer POST response as observed by `sendOffer`: `ok` is
`Response.ok` (true exactly for 2xx statuses), `location` the
`Location` header (`none` when absent), `link` the `link` header, and
`body` the response text. -/
structure Response where
  ok : Bool
  location : Option String
  link : Option String
  body : String
deriving DecidableEq, Repr

/-! ### Link-header parsing (`receiveIceServers`, lines 137-169)

The source uses two JS regexes.  `/<(.+)>/` matches at the leftmost `<`
that is followed, at distance at least two, by a `>`; the greedy `.+`
makes the capture extend to the **last** `>` of the remaining string.
`/([^=]+)="([^"]+)"/` matches at the leftmost position where a maximal
nonempty run of non-`=` characters is followed by `="`, a nonempty run
of non-`"` characters and a closing `"`. -/

/-- JS `String.prototype.split` with a one-character separator, over
character lists: `"a,b".split(',') = ["a","b"]`, `"".split(',') = [""]`. -/
def splitOnCharAux (sep : Char) : List Char → List Char → List (List Char)
  | [], acc => [acc.reverse]
  | c :: rest, acc =>
    if c = sep then acc.reverse :: splitOnCharAux sep rest []
    else splitOnCharAux sep rest (c :: acc)

/-- Split a character list on a separator character. -/
def splitOnChar (sep : Char) (l : List Char) : List (List Char) :=
  splitOnCharAux sep l []

/-- The whitespace characters relevant to JS `trim` on the ASCII inputs
this protocol carries. -/
def isJsSpace (c : Char) : Bool :=
  c = ' ' || c = '\t' || c = '\n' || c = '\r' || c = '\x0b' || c = '\x0c'

/-- JS `String.prototype.trim`: drop whitespace from both ends. -/
def trimChars (l : List Char) : List Char :=
  ((l.dropWhile isJsSpace).reverse.dropWhile isJsSpace).reverse

/-- The prefix of `l` strictly before its last `'>'`, or `none` when `l`
contains no `'>'`. -/
def beforeLastGt : List Char → Option (List Char)
  | [] => none
  | c :: rest =>
    match beforeLastGt rest with
    | some r => some (c :: r)
    | none => if c = '>' then some [] else none

/-- The capture group of the first JS-semantics match of `/<(.+)>/`. -/
def findAngleCapture : List Char → Option (List Char)
  | [] => none
  | c :: rest =>
    if c = '<' then
      match beforeLastGt rest with
      | some cap => if cap.isEmpty then findAngleCapture rest else some cap
      | none => findAngleCapture rest
    else findAngleCapture rest

/-- Attempt of `/([^=]+)="([^"]+)"/` anchored at the current position:
the maximal nonempty run of non-`=` characters, then `="`, then a
nonempty run of non-`"` characters, then `"`. -/
def matchKVAt (l : List Char) : Option (List Char × List Char) :=
  let k := l.takeWhile (fun c => c ≠ '=')
  if k.isEmpty then none
  else
    match l.dropWhile (fun c => c ≠ '=') with
    | '=' :: '"' :: r2 =>
      let v := r2.takeWhile (fun c => c ≠ '"')
      if v.isEmpty then none
      else
        match r2.dropWhile (fun c => c ≠ '"') with
        | '"' :: _ => some (k, v)
        | _ => none
    | _ => none

/-- First (leftmost) JS-semantics match of `/([^=]+)="([^"]+)"/`. -/
def matchKV : List Char → Option (List Char × List Char)
  | [] => none
  | c :: rest =>
    match matchKVAt (c :: rest) with
    | some r => some r
    | none => matchKV rest

/-- The `switch (pair[1])` of lines 153-163: assign `username`,
`credential` or `credentialType`; any other key is ignored. -/
def applyPair (server : IceServer) (k v : String) : IceServer :=
  if k = "username" then { server with username := some v }
  else if k = "credential" then { server with credential := some v }
  else if k = "credential-type" then { server with credentialType := some v }
  else server

/-- One comma-separated entry of the Link header (lines 145-167): split
on `;`, trim, keep only entries with a segment exactly `rel="ice-server"`,
extract the URL from the first segment, then fold the key/value pairs of
every segment into the descriptor.  Entries failing URL extraction yield
nothing. -/
def parseLink (link : List Char) : Option IceServer :=
  let split := (splitOnChar ';' link).map trimChars
  if split.any (fun x => x = "rel=\"ice-server\"".data) then
    match findAngleCapture (split.headD []) with
    | some urlChars =>
      some (split.foldl
        (fun server f =>
          match matchKV f with
          | some (k, v) => applyPair server (String.mk k) (String.mk v)
          | none => server)
        { urls := [String.mk urlChars] })
    | none => none
  else none

/-- The whole Link header value: split on `,` (lines 143-169). -/
def parseLinkHeader (h : String) : List IceServer :=
  ((splitOnChar ',' h.data).filterMap parseLink)

/-! ### The `WebRtcClient` state machine -/

/-- The mutable state of a `WebRtcClient` together with its observable
traces. `patches` records the PATCH requests issued (in issue order),
`responseErrors` the `responseerror` events dispatched with their raw
response, `thrown` the messages of exceptions thrown out of the client,
`pendingRemote`/`flushPending` the continuation of `sendOffer` suspended
after the `Location` header was processed. -/
structure MState where
  cachedCandidates : List Candidate
  sessionUrl : Option String
  iceServers : List IceServer
  remoteDescription : Option String
  pendingRemote : Option String
  flushPending : Bool
  patches : List PatchRequest
  responseErrors : List Response
  thrown : List String
deriving DecidableEq, Repr

/-- The state of a freshly constructed client: the caller-supplied
`config.iceServers` (or `[]` when omitted), everything else empty. -/
def initState (iceServers : List IceServer) : MState :=
  { cachedCandidates := []
    sessionUrl := none
    iceServers := iceServers
    remoteDescription := none
    pendingRemote := none
    flushPending := false
    patches := []
    responseErrors := []
    thrown := [] }

/-- The request built by `sendCandidate` (lines 109-119): PATCH to the
session URL, `Content-Type: application/trickle-ice-sdpfrag`, body the
four lines joined by CRLF. -/
def sendCandidateReq (url : String) (c : Candidate) : PatchRequest :=
  { url := url
    method := "PATCH"
    contentType := "application/trickle-ice-sdpfrag"
    body := String.intercalate "\r\n"
      ["m=audio 9 RTP/AVP 0",
       "a=ice-ufrag:" ++ c.usernameFragment,
       "a=mid:" ++ c.sdpMid,
       "a=" ++ c.candidate] }

/-- `handleIceCandidateFromClient` (lines 33-46): gathering-done or
empty-line candidates are dropped; with `sessionUrl` unset the candidate
is pushed onto `cachedCandidates`; otherwise it is relayed immediately
via `sendCandidate`. -/
def handleIceCandidateFromClient (s : MState) (ev : Option Candidate) : MState :=
  match ev with
  | none => s
  | some c =>
    if c.candidate = "" then s
    else
      match s.sessionUrl with
      | none => { s with cachedCandidates := s.cachedCandidates ++ [c] }
      | some url => { s with patches := s.patches ++ [sendCandidateReq url c] }

/-- `onResponseError` (lines 184-186): dispatch a `responseerror`
`CustomEvent` whose detail is the raw response. -/
def onResponseError (s : MState) (r : Response) : MState :=
  { s with responseErrors := s.responseErrors ++ [r] }

/-- `receiveIceServers` (lines 137-182): nothing on a missing (or falsy,
i.e. empty) header; otherwise parse, and install the parsed list when it
is nonempty and the current configuration reports zero ICE servers. -/
def receiveIceServers (s : MState) (linkHeader : Option String) : MState :=
  match linkHeader with
  | none => s
  | some h =>
    if h = "" then s
    else
      let servers := parseLinkHeader h
      if servers ≠ [] ∧ s.iceServers = [] then { s with iceServers := servers }
      else s

/-- `sendCachedCandidates` (lines 122-127): relay each cached candidate
in order, then clear the cache.  (`sendCandidate` throws when
`sessionUrl` is unset, aborting the loop before the clear; with an empty
cache the loop body never runs.) -/
def sendCachedCandidates (s : MState) : MState :=
  match s.sessionUrl with
  | some url =>
    { s with
      patches := s.patches ++ s.cachedCandidates.map (sendCandidateReq url)
      cachedCandidates := [] }
  | none =>
    if s.cachedCandidates = [] then s
    else { s with thrown := s.thrown ++ ["Session url not set when expected"] }

/-- `sendOffer`, from the response arriving (line 63) up to the
suspension at `await response.text()` (line 74): a non-ok response
dispatches `responseerror` and returns; otherwise `receiveIceServers`
runs on the headers, then a missing `Location` header throws, and
otherwise `sessionUrl` is assigned and the rest of `sendOffer`
(`sendOfferResume`) is left pending. -/
def sendOfferResponse (s : MState) (r : Response) : MState :=
  if !r.ok then onResponseError s r
  else
    let s1 := receiveIceServers s r.link
    match r.location with
    | none => { s1 with thrown := s1.thrown ++ ["Session not provided in Location header"] }
    | some loc =>
      { s1 with sessionUrl := some loc, pendingRemote := some r.body, flushPending := true }

/-- The rest of `sendOffer` (lines 74-86): read the body, apply it as
the remote description, then `sendCachedCandidates`.  A no-op when no
`sendOffer` is suspended. -/
def sendOfferResume (s : MState) : MState :=
  if s.flushPending then
    sendCachedCandidates
      { s with remoteDescription := s.pendingRemote, flushPending := false }
  else s

/-- The notifications a client processes: an `icecandidate` event
(`none` candidate = gathering done), the offer POST response arriving,
and the suspended `sendOffer` resuming (body read + remote description
applied + flush). -/
inductive Ev where
  | cand (c : Option Candidate)
  | response (r : Response)
  | resume
deriving DecidableEq, Repr

/-- One event step of the client. -/
def step (s : MState) : Ev → MState
  | .cand c => handleIceCandidateFromClient s c
  | .response r => sendOfferResponse s r
  | .resume => sendOfferResume s

/-- Run the client over a sequence of notifications. -/
def run (s : MState) (evs : List Ev) : MState :=
  evs.foldl step s

/-- The nonempty candidate payload of an event, when it has one. -/
def discCand : Ev → Option Candidate
  | .cand (some c) => if c.candidate = "" then none else some c
  | _ => none

/-- The candidates a sequence of events actually delivers: nonempty
candidate payloads, in arrival order. -/
def discoveredCands (evs : List Ev) : List Candidate :=
  evs.filterMap discCand

/-- `true` exactly when the event is an `icecandidate` notification. -/
def isCand : Ev → Bool
  | .cand _ => true
  | _ => false

/-- `true` when every event of the list is an `icecandidate`
notification. -/
def candsOnly (evs : List Ev) : Bool :=
  evs.all isCand

/-! ### Track pairing (`handleGotTrack`)

`WhepClient.handleGotTrack` (lines 234-258) and
`DuplexClient.handleGotTrack` (lines 339-363) are textually identical
(the source says so at line 338); both are embedded by the one function
below.  Tracks are identified by a `Nat` id; a materialized
`MediaStream` is the list of track ids it was constructed from. -/

/-- A `track` event: the track kind (`"audio"`/`"video"`), the number of
associated streams (`ev.streams.length`), and the track id. -/
structure TrackEvent where
  kind : String
  streamsLen : Nat
  trackId : Nat
deriving DecidableEq, Repr

/-- The track-pairing fields of a `WhepClient`/`DuplexClient`:
`outputVideoTracks`, `outputAudioTrack`, `videoElements` (each element
recorded as the track list of the stream it plays), whether a container
is configured, and the trace of every `MediaStream` constructed. -/
structure PairerState where
  outputVideoTracks : List Nat
  outputAudioTrack : Option Nat
  videoElements : List (List Nat)
  hasContainer : Bool
  createdStreams : List (List Nat)
deriving DecidableEq, Repr

/-- A fresh subscriber/duplex client with no tracks yet. -/
def initPairer (hasContainer : Bool) : PairerState :=
  { outputVideoTracks := []
    outputAudioTrack := none
    videoElements := []
    hasContainer := hasContainer
    createdStreams := [] }

/-- Lines 237-242 / 342-347: record a video track only when it arrives
with at least one associated stream; an audio track always (last one
wins). -/
def recordTracks (s : PairerState) (ev : TrackEvent) : PairerState :=
  let s1 :=
    if ev.kind = "video" ∧ ev.streamsLen > 0 then
      { s with outputVideoTracks := s.outputVideoTracks ++ [ev.trackId] }
    else s
  if ev.kind = "audio" then { s1 with outputAudioTrack := some ev.trackId }
  else s1

/-- The `MediaStream` contents the loop body constructs at index `i`
(lines 247-252 / 352-357): `[audio, video0]` at index 0, the single
video elsewhere. -/
def grouping (a : Nat) (videos : List Nat) (i : Nat) : List Nat :=
  if i = 0 then [a, videos.getD i 0] else [videos.getD i 0]

/-- One iteration of the pairing loop (lines 245-256 / 350-361) at index
`i`: `videoElements[i]` truthy (an existing element) means skip;
otherwise construct the stream and, only when a container is configured,
append a player element for it. -/
def pairStep (a : Nat) (videos : List Nat) (s : PairerState) (i : Nat) : PairerState :=
  if i < s.videoElements.length then s
  else
    let stream := grouping a videos i
    let s1 := { s with createdStreams := s.createdStreams ++ [stream] }
    if s1.hasContainer then { s1 with videoElements := s1.videoElements ++ [stream] }
    else s1

/-- The stream groupings the loop constructs for every recorded video
track: `[audio, video0]` at index 0, `[video_i]` for the rest. -/
def allGroupings (a : Nat) (videos : List Nat) : List (List Nat) :=
  (List.range videos.length).map (grouping a videos)

/-- The pairing loop `for (let i = 0; i < this.outputVideoTracks.length; i++)`. -/
def runPairLoop (a : Nat) (videos : List Nat) (s : PairerState) : PairerState :=
  (List.range videos.length).foldl (pairStep a videos) s

/-- `handleGotTrack` (lines 234-258 and 339-363): record the track, then
when an audio track is recorded and there are more recorded video tracks
than video elements, run the pairing loop. -/
def handleGotTrack (s : PairerState) (ev : TrackEvent) : PairerState :=
  let s2 := recordTracks s ev
  match s2.outputAudioTrack with
  | some a =>
    if s2.videoElements.length < s2.outputVideoTracks.length then
      runPairLoop a s2.outputVideoTracks s2
    else s2
  | none => s2

/-- Run a sequence of `track` events. -/
def runTracks (s : PairerState) (evs : List TrackEvent) : PairerState :=
  evs.foldl handleGotTrack s

/-! ### `start` for the publishing roles (`WhipClient`, `DuplexClient`)

Local media acquisition (`requestAccess`, lines 366-381) catches every
failure and yields `null`; it is modelled by the `acquired` argument.
The observable outcome of `start` is whether the offer was sent, the
value the `async` function resolves with (`none` models JS `undefined`),
and whether `start` itself logged an acquisition error. -/

/-- The observable outcome of a `start()` call. -/
structure StartResult where
  offerSent : Bool
  returned : Option Bool
  loggedMediaError : Bool
deriving DecidableEq, Repr

/-- `WhipClient.start` (lines 275-292): with no media acquired, log
`"Could not access media devices"` and return `false`; otherwise attach
the tracks, send the offer and return `true`. -/
def whipStart (acquired : Option Unit) : StartResult :=
  match acquired with
  | none => { offerSent := false, returned := some false, loggedMediaError := true }
  | some _ => { offerSent := true, returned := some true, loggedMediaError := false }

/-- `DuplexClient.start` (lines 316-336): whatever `requestAccess`
yielded, create the receive transceivers, attach local tracks only when
media is present, and send the offer; the function body has no `return`
statement, so it resolves with `undefined` in every case. -/
def duplexStart (acquired : Option Unit) : StartResult :=
  match acquired with
  | none => { offerSent := true, returned := none, loggedMediaError := false }
  | some _ => { offerSent := true, returned := none, loggedMediaError := false }

/-! ### Helper lemmas -/

theorem run_append (s : MState) (l1 l2 : List Ev) :
    run s (l1 ++ l2) = run (run s l1) l2 := by
  simp [run, List.foldl_append]

theorem run_cons (s : MState) (e : Ev) (l : List Ev) :
    run s (e :: l) = run (step s e) l := rfl

theorem step_cand (s : MState) (c : Option Candidate) :
    step s (Ev.cand c) = handleIceCandidateFromClient s c := rfl

theorem step_response (s : MState) (r : Response) :
    step s (Ev.response r) = sendOfferResponse s r := rfl

theorem step_resume (s : MState) : step s Ev.resume = sendOfferResume s := rfl

/-- `receiveIceServers` changes at most the `iceServers` field. -/
theorem receiveIceServers_shape (s : MState) (l : Option String) :
    ∃ ice, receiveIceServers s l = { s with iceServers := ice } := by
  cases l with
  | none => exact ⟨s.iceServers, rfl⟩
  | some h =>
    by_cases he : h = ""
    · exact ⟨s.iceServers, by simp [receiveIceServers, he]⟩
    · by_cases hc : parseLinkHeader h ≠ [] ∧ s.iceServers = []
      · exact ⟨parseLinkHeader h, by simp [receiveIceServers, he, hc]⟩
      · exact ⟨s.iceServers, by simp [receiveIceServers, he, hc]⟩

/-- Running `icecandidate` notifications with no session URL only
queues: every delivered candidate is appended to the cache, in order. -/
theorem run_cands_none (evs : List Ev) :
    ∀ s : MState, s.sessionUrl = none → candsOnly evs = true →
      run s evs = { s with cachedCandidates := s.cachedCandidates ++ discoveredCands evs } := by
  induction evs with
  | nil => intro s _ _; simp [run, discoveredCands]
  | cons e evs ih =>
    intro s hs hc
    rw [candsOnly, List.all_cons, Bool.and_eq_true] at hc
    cases e with
    | cand c =>
      rw [run_cons]
      cases c with
      | none =>
        rw [show step s (Ev.cand none) = s from rfl]
        rw [ih s hs hc.2]
        simp [discoveredCands, discCand]
      | some cc =>
        by_cases hemp : cc.candidate = ""
        · rw [show step s (Ev.cand (some cc)) = s by
            simp [step, handleIceCandidateFromClient, hemp]]
          rw [ih s hs hc.2]
          simp [discoveredCands, discCand, hemp]
        · rw [show step s (Ev.cand (some cc))
              = { s with cachedCandidates := s.cachedCandidates ++ [cc] } by
            simp [step, handleIceCandidateFromClient, hemp, hs]]
          rw [ih { s with cachedCandidates := s.cachedCandidates ++ [cc] } hs hc.2]
          simp [discoveredCands, discCand, hemp, List.append_assoc]
    | response r => simp [isCand] at hc
    | resume => simp [isCand] at hc

/-- Running `icecandidate` notifications with the session URL set only
relays: every delivered candidate is PATCHed immediately, in order, and
nothing else changes. -/
theorem run_cands_some (evs : List Ev) :
    ∀ (s : MState) (url : String), s.sessionUrl = some url → candsOnly evs = true →
      run s evs
        = { s with patches := s.patches ++ (discoveredCands evs).map (sendCandidateReq url) } := by
  induction evs with
  | nil => intro s url _ _; simp [run, discoveredCands]
  | cons e evs ih =>
    intro s url hs hc
    rw [candsOnly, List.all_cons, Bool.and_eq_true] at hc
    cases e with
    | cand c =>
      rw [run_cons]
      cases c with
      | none =>
        rw [show step s (Ev.cand none) = s from rfl]
        rw [ih s url hs hc.2]
        simp [discoveredCands, discCand]
      | some cc =>
        by_cases hemp : cc.candidate = ""
        · rw [show step s (Ev.cand (some cc)) = s by
            simp [step, handleIceCandidateFromClient, hemp]]
          rw [ih s url hs hc.2]
          simp [discoveredCands, discCand, hemp]
        · rw [show step s (Ev.cand (some cc))
              = { s with patches := s.patches ++ [sendCandidateReq url cc] } by
            simp [step, handleIceCandidateFromClient, hemp, hs]]
          rw [ih { s with patches := s.patches ++ [sendCandidateReq url cc] } url hs hc.2]
          simp [discoveredCands, discCand, hemp, List.append_assoc]
    | response r => simp [isCand] at hc
    | resume => simp [isCand] at hc

/-- A successful response with a `Location` header: ICE discovery runs,
the session URL is assigned, the continuation is left pending; nothing
is relayed or dequeued by this step. -/
theorem sendOfferResponse_ok_some (s : MState) (r : Response) (loc : String)
    (hok : r.ok = true) (hloc : r.location = some loc) :
    ∃ ic, sendOfferResponse s r
      = { s with iceServers := ic, sessionUrl := some loc,
                 pendingRemote := some r.body, flushPending := true } := by
  obtain ⟨ic, hic⟩ := receiveIceServers_shape s r.link
  refine ⟨ic, ?_⟩
  simp only [sendOfferResponse, hok, Bool.not_true, Bool.false_eq_true, if_false, hic, hloc]

/-- A successful response without a `Location` header: ICE discovery has
already run, then the fatal error is thrown; the session URL stays as it
was. -/
theorem sendOfferResponse_ok_none (s : MState) (r : Response)
    (hok : r.ok = true) (hloc : r.location = none) :
    ∃ ic, sendOfferResponse s r
      = { s with iceServers := ic,
                 thrown := s.thrown ++ ["Session not provided in Location header"] } := by
  obtain ⟨ic, hic⟩ := receiveIceServers_shape s r.link
  refine ⟨ic, ?_⟩
  simp only [sendOfferResponse, hok, Bool.not_true, Bool.false_eq_true, if_false, hic, hloc]

/-- Resuming a pending `sendOffer`: the remote description is applied
and the whole cache is relayed, in order, and cleared. -/
theorem sendOfferResume_flush (s : MState) (url : String)
    (hf : s.flushPending = true) (hu : s.sessionUrl = some url) :
    sendOfferResume s
      = { s with remoteDescription := s.pendingRemote, flushPending := false,
                 patches := s.patches ++ s.cachedCandidates.map (sendCandidateReq url),
                 cachedCandidates := [] } := by
  simp only [sendOfferResume, hf, if_true, sendCachedCandidates, hu]

/-- The whole negotiation transition after a queue-only phase. -/
theorem negotiation_transition (ice : List IceServer) (pre : List Ev) (r : Response) (loc : String)
    (hpre : candsOnly pre = true) (hok : r.ok = true) (hloc : r.location = some loc) :
    ∃ ic, run (initState ice) (pre ++ [Ev.response r])
      = { initState ice with
          cachedCandidates := discoveredCands pre
          iceServers := ic
          sessionUrl := some loc
          pendingRemote := some r.body
          flushPending := true } := by
  rw [run_append, run_cands_none pre (initState ice) rfl hpre]
  obtain ⟨ic, hstep⟩ := sendOfferResponse_ok_some
    { initState ice with
        cachedCandidates := (initState ice).cachedCandidates ++ discoveredCands pre }
    r loc hok hloc
  refine ⟨ic, ?_⟩
  rw [show run { initState ice with
        cachedCandidates := (initState ice).cachedCandidates ++ discoveredCands pre }
      [Ev.response r]
      = sendOfferResponse { initState ice with
          cachedCandidates := (initState ice).cachedCandidates ++ discoveredCands pre } r from rfl]
  rw [hstep]
  simp [initState]

/-! ### Claims about candidate trickling and the offer exchange -/

/-- Claim C1: for every sequence of candidate-discovered notifications
delivered to `handleIceCandidateFromClient`: each nonempty candidate
arriving while `sessionUrl` is unset is appended to `cachedCandidates`
(and nothing is relayed during that phase); after negotiation completes
the queued candidates have all been relayed by `sendCachedCandidates`,
in original arrival order, each exactly once, and the queue is empty;
every nonempty candidate arriving while `sessionUrl` is set is relayed
immediately and never queued. -/
theorem C1_queue_then_flush (ice : List IceServer) (pre post : List Ev)
    (r : Response) (loc : String)
    (hpre : candsOnly pre = true) (hpost : candsOnly post = true)
    (hok : r.ok = true) (hloc : r.location = some loc) :
    (run (initState ice) pre).cachedCandidates = discoveredCands pre ∧
    (run (initState ice) pre).patches = [] ∧
    (run (initState ice) (pre ++ Ev.response r :: Ev.resume :: post)).patches
      = (discoveredCands pre ++ discoveredCands post).map (sendCandidateReq loc) ∧
    (run (initState ice) (pre ++ Ev.response r :: Ev.resume :: post)).cachedCandidates
      = [] := by
  have hq := run_cands_none pre (initState ice) rfl hpre
  obtain ⟨ic, htrans⟩ := negotiation_transition ice pre r loc hpre hok hloc
  have hsplit : pre ++ Ev.response r :: Ev.resume :: post
      = (pre ++ [Ev.response r]) ++ Ev.resume :: post := by simp
  rw [hsplit, run_append, htrans, run_cons]
  rw [show step { initState ice with
        cachedCandidates := discoveredCands pre, iceServers := ic,
        sessionUrl := some loc, pendingRemote := some r.body, flushPending := true }
      Ev.resume
      = sendOfferResume { initState ice with
          cachedCandidates := discoveredCands pre, iceServers := ic,
          sessionUrl := some loc, pendingRemote := some r.body, flushPending := true }
      from rfl]
  rw [sendOfferResume_flush _ loc rfl rfl]
  rw [run_cands_some post _ loc rfl hpost]
  refine ⟨?_, ?_, ?_, ?_⟩
  · rw [hq]; simp [initState]
  · rw [hq]; simp [initState]
  · simp [initState, List.map_append, List.append_assoc]
  · simp

/-- Claim C2, counterexample: candidate `cA` is queued before the
response arrives; the response sets `sessionUrl`, but the flush only
happens after `sendOffer` resumes from `await response.text()` /
`setRemoteDescription`.  Candidate `cB`, discovered in that window, is
relayed immediately — ahead of the still-queued `cA`.  The flush is
therefore not synchronous with the transition that sets `sessionUrl`. -/
theorem C2_counterexample :
    (run (initState [])
        [Ev.cand (some ⟨"candidate:1 1 UDP 2122260223 10.0.0.1 50000 typ host", "0", "ufA"⟩),
         Ev.response ⟨true, some "/session/abc123", none, "v=0 answer"⟩,
         Ev.cand (some ⟨"candidate:2 1 UDP 2122260222 10.0.0.2 50002 typ host", "1", "ufB"⟩),
         Ev.resume]).patches
      = [sendCandidateReq "/session/abc123"
           ⟨"candidate:2 1 UDP 2122260222 10.0.0.2 50002 typ host", "1", "ufB"⟩,
         sendCandidateReq "/session/abc123"
           ⟨"candidate:1 1 UDP 2122260223 10.0.0.1 50000 typ host", "0", "ufA"⟩] ∧
    sendCandidateReq "/session/abc123"
        ⟨"candidate:2 1 UDP 2122260222 10.0.0.2 50002 typ host", "1", "ufB"⟩
      ≠ sendCandidateReq "/session/abc123"
          ⟨"candidate:1 1 UDP 2122260223 10.0.0.1 50000 typ host", "0", "ufA"⟩ := by
  constructor
  · rfl
  · decide

/-- Claim C2, amended: queueing and relaying are mutually exclusive on
whether `sessionUrl` is set, and no candidate is lost or duplicated; but
the flush is *not* synchronous with the transition that sets
`sessionUrl` — it runs only when `sendOffer` resumes after reading the
body and applying the remote description.  The transition itself leaves
the queue untouched and relays nothing; candidates discovered in the
window between the transition and the flush are relayed immediately and
precede every queued candidate; the queued candidates are then flushed
in original arrival order, and later discoveries are relayed
immediately. -/
theorem C2_amended_flush_window (ice : List IceServer) (pre mid post : List Ev)
    (r : Response) (loc : String)
    (hpre : candsOnly pre = true) (hmid : candsOnly mid = true) (hpost : candsOnly post = true)
    (hok : r.ok = true) (hloc : r.location = some loc) :
    (run (initState ice) (pre ++ [Ev.response r])).sessionUrl = some loc ∧
    (run (initState ice) (pre ++ [Ev.response r])).cachedCandidates = discoveredCands pre ∧
    (run (initState ice) (pre ++ [Ev.response r])).patches = [] ∧
    (run (initState ice) (pre ++ [Ev.response r])).flushPending = true ∧
    (run (initState ice) ((pre ++ [Ev.response r]) ++ mid ++ Ev.resume :: post)).patches
      = ((discoveredCands mid ++ discoveredCands pre) ++ discoveredCands post).map
          (sendCandidateReq loc) ∧
    (run (initState ice) ((pre ++ [Ev.response r]) ++ mid ++ Ev.resume :: post)).cachedCandidates
      = [] := by
  obtain ⟨ic, htrans⟩ := negotiation_transition ice pre r loc hpre hok hloc
  have h56 : run (initState ice) ((pre ++ [Ev.response r]) ++ mid ++ Ev.resume :: post)
      = run (run (run (initState ice) (pre ++ [Ev.response r])) mid) (Ev.resume :: post) := by
    rw [run_append, run_append]
  rw [h56, htrans]
  rw [run_cands_some mid _ loc rfl hmid, run_cons, step_resume]
  rw [sendOfferResume_flush _ loc rfl rfl]
  rw [run_cands_some post _ loc rfl hpost]
  refine ⟨rfl, by simp [initState], by simp [initState], rfl, ?_, by simp⟩
  simp [initState, List.map_append, List.append_assoc]

theorem run_singleton (s : MState) (e : Ev) : run s [e] = step s e := rfl

/-- Concrete candidates and responses used by the witnesses. -/
def candW1 : Candidate :=
  ⟨"candidate:1 1 UDP 2122 192.0.2.1 3001 typ host", "0", "uf1"⟩

def candW2 : Candidate :=
  ⟨"candidate:2 1 UDP 2121 192.0.2.2 3002 typ host", "1", "uf2"⟩

def candW3 : Candidate :=
  ⟨"candidate:3 1 UDP 2120 192.0.2.3 3003 typ host", "2", "uf3"⟩

/-- A queue-phase event list: two real candidates around a
gathering-done notification. -/
def evsPreW : List Ev :=
  [Ev.cand (some candW1), Ev.cand none, Ev.cand (some candW2)]

/-- A post-negotiation event list: one real candidate. -/
def evsPostW : List Ev := [Ev.cand (some candW3)]

/-- A successful offer response carrying a session location. -/
def respW : Response := ⟨true, some "/session/w", none, "v=0 answer"⟩

theorem C1_queue_then_flush_witness :
    (run (initState []) evsPreW).cachedCandidates = discoveredCands evsPreW ∧
    (run (initState []) evsPreW).patches = [] ∧
    (run (initState []) (evsPreW ++ Ev.response respW :: Ev.resume :: evsPostW)).patches
      = (discoveredCands evsPreW ++ discoveredCands evsPostW).map
          (sendCandidateReq "/session/w") ∧
    (run (initState []) (evsPreW ++ Ev.response respW :: Ev.resume :: evsPostW)).cachedCandidates
      = [] :=
  C1_queue_then_flush [] evsPreW evsPostW respW "/session/w" rfl rfl rfl rfl

theorem C2_amended_flush_window_witness :
    (run (initState []) (evsPreW ++ [Ev.response respW])).sessionUrl = some "/session/w" ∧
    (run (initState []) (evsPreW ++ [Ev.response respW])).cachedCandidates
      = discoveredCands evsPreW ∧
    (run (initState []) (evsPreW ++ [Ev.response respW])).patches = [] ∧
    (run (initState []) (evsPreW ++ [Ev.response respW])).flushPending = true ∧
    (run (initState [])
        ((evsPreW ++ [Ev.response respW]) ++ evsPostW ++ Ev.resume :: evsPostW)).patches
      = ((discoveredCands evsPostW ++ discoveredCands evsPreW) ++ discoveredCands evsPostW).map
          (sendCandidateReq "/session/w") ∧
    (run (initState [])
        ((evsPreW ++ [Ev.response respW]) ++ evsPostW ++ Ev.resume :: evsPostW)).cachedCandidates
      = [] :=
  C2_amended_flush_window [] evsPreW evsPostW evsPostW respW "/session/w" rfl rfl rfl rfl rfl

/-- Claim C3: a successful (2xx) response lacking the `Location` header
makes `sendOffer` throw `"Session not provided in Location header"` (an
exception, not merely an event); `sessionUrl` stays unset for the rest
of the session, nothing is ever relayed, and every candidate — before
and after — only accumulates in the queue. -/
theorem C3_missing_location_fatal (ice : List IceServer) (pre post : List Ev) (r : Response)
    (hpre : candsOnly pre = true) (hpost : candsOnly post = true)
    (hok : r.ok = true) (hloc : r.location = none) :
    (run (initState ice) (pre ++ Ev.response r :: post)).thrown
      = ["Session not provided in Location header"] ∧
    (run (initState ice) (pre ++ Ev.response r :: post)).sessionUrl = none ∧
    (run (initState ice) (pre ++ Ev.response r :: post)).patches = [] ∧
    (run (initState ice) (pre ++ Ev.response r :: post)).responseErrors = [] ∧
    (run (initState ice) (pre ++ Ev.response r :: post)).cachedCandidates
      = discoveredCands pre ++ discoveredCands post := by
  have hsplit : pre ++ Ev.response r :: post = (pre ++ [Ev.response r]) ++ post := by simp
  rw [hsplit, run_append, run_append, run_cands_none pre (initState ice) rfl hpre]
  obtain ⟨ic, hstep⟩ := sendOfferResponse_ok_none
    { initState ice with
        cachedCandidates := (initState ice).cachedCandidates ++ discoveredCands pre }
    r hok hloc
  rw [run_singleton, step_response, hstep]
  rw [run_cands_none post _ rfl hpost]
  refine ⟨by simp [initState], rfl, by simp [initState], by simp [initState], ?_⟩
  simp [initState]

/-- An ok response with no `Location` header. -/
def respNoLocW : Response := ⟨true, none, none, "v=0 answer"⟩

theorem C3_missing_location_fatal_witness :
    (run (initState []) (evsPreW ++ Ev.response respNoLocW :: evsPostW)).thrown
      = ["Session not provided in Location header"] ∧
    (run (initState []) (evsPreW ++ Ev.response respNoLocW :: evsPostW)).sessionUrl = none ∧
    (run (initState []) (evsPreW ++ Ev.response respNoLocW :: evsPostW)).patches = [] ∧
    (run (initState []) (evsPreW ++ Ev.response respNoLocW :: evsPostW)).responseErrors = [] ∧
    (run (initState []) (evsPreW ++ Ev.response respNoLocW :: evsPostW)).cachedCandidates
      = discoveredCands evsPreW ++ discoveredCands evsPostW :=
  C3_missing_location_fatal [] evsPreW evsPostW respNoLocW rfl rfl rfl rfl

/-- Claim C4: on a non-2xx response `sendOffer` dispatches a
`responseerror` event carrying the raw response and simply returns: no
exception, `sessionUrl` untouched, no relay-server discovery, no remote
description, no PATCH, no retry — the state is unchanged except for the
recorded event. -/
theorem C4_response_error_event (s : MState) (r : Response) (h : r.ok = false) :
    sendOfferResponse s r = { s with responseErrors := s.responseErrors ++ [r] } := by
  simp [sendOfferResponse, h, onResponseError]

/-- A failed (non-2xx) offer response. -/
def respBadW : Response := ⟨false, none, none, "503 unavailable"⟩

theorem C4_response_error_event_witness :
    sendOfferResponse (initState []) respBadW
      = { initState [] with
          responseErrors := (initState []).responseErrors ++ [respBadW] } :=
  C4_response_error_event (initState []) respBadW rfl

/-! ### Claims about relay-server discovery and the trickle format -/

/-- With a nonempty parse result and no pre-existing configuration the
discovered list is installed. -/
theorem receiveIceServers_applies (s : MState) (h : String)
    (hne : h ≠ "") (hp : parseLinkHeader h ≠ []) (hs : s.iceServers = []) :
    receiveIceServers s (some h) = { s with iceServers := parseLinkHeader h } := by
  simp [receiveIceServers, hne, hp, hs]

/-- A pre-existing (caller-supplied) configuration is never touched. -/
theorem receiveIceServers_keeps (s : MState) (h : String) (hs : s.iceServers ≠ []) :
    receiveIceServers s (some h) = s := by
  by_cases hne : h = ""
  · simp [receiveIceServers, hne]
  · simp [receiveIceServers, hne, hs]

/-- The Link header of the C5 scenario. -/
def c5Header : String :=
  "<turn:example.com>; rel=\"ice-server\"; username=\"u\"; credential=\"p\""

/-- The descriptor the C5 scenario should produce. -/
def c5Server : IceServer :=
  { urls := ["turn:example.com"], username := some "u", credential := some "p" }

/-- Claim C5: the header
`Link: <turn:example.com>; rel="ice-server"; username="u"; credential="p"`
parses to exactly `[{urls:["turn:example.com"], username:"u",
credential:"p"}]`; with zero configured relay servers that list is
installed verbatim; with a caller-supplied nonempty configuration
nothing changes; and in general the configuration is either left exactly
as it was or replaced in total by the parsed list (no merge). -/
theorem C5_ice_server_discovery :
    parseLinkHeader c5Header = [c5Server] ∧
    (∀ s : MState, s.iceServers = [] →
      (receiveIceServers s (some c5Header)).iceServers = [c5Server]) ∧
    (∀ s : MState, s.iceServers ≠ [] →
      (receiveIceServers s (some c5Header)).iceServers = s.iceServers) ∧
    (∀ (s : MState) (l : Option String),
      (receiveIceServers s l).iceServers = s.iceServers ∨
      ∃ h, l = some h ∧ (receiveIceServers s l).iceServers = parseLinkHeader h) := by
  refine ⟨by decide, ?_, ?_, ?_⟩
  · intro s hs
    rw [receiveIceServers_applies s c5Header (by decide) (by decide) hs]
    simpa using (by decide : parseLinkHeader c5Header = [c5Server])
  · intro s hs
    rw [receiveIceServers_keeps s c5Header hs]
  · intro s l
    cases l with
    | none => exact Or.inl rfl
    | some h =>
      by_cases hne : h = ""
      · exact Or.inl (by simp [receiveIceServers, hne])
      · by_cases hc : parseLinkHeader h ≠ [] ∧ s.iceServers = []
        · exact Or.inr ⟨h, rfl, by simp [receiveIceServers, hne, hc]⟩
        · exact Or.inl (by simp [receiveIceServers, hne, hc])

/-- A caller-supplied relay server used by the C5 witness. -/
def stunW : IceServer := { urls := ["stun:stun.example.org"] }

theorem C5_ice_server_discovery_witness :
    (receiveIceServers (initState []) (some c5Header)).iceServers = [c5Server] ∧
    (receiveIceServers (initState [stunW]) (some c5Header)).iceServers
      = (initState [stunW]).iceServers :=
  ⟨C5_ice_server_discovery.2.1 (initState []) rfl,
   C5_ice_server_discovery.2.2.1 (initState [stunW]) (by decide)⟩

/-- Claim C6: every trickle request built by `sendCandidate` is a PATCH
to the session URL with `Content-Type: application/trickle-ice-sdpfrag`
whose body is exactly the four CRLF-joined lines
`m=audio 9 RTP/AVP 0`, `a=ice-ufrag:<usernameFragment>`,
`a=mid:<sdpMid>`, `a=<candidate>` — no `a=ice-pwd` line exists, the ICE
password is omitted.  Furthermore an end-of-gathering notification
(no candidate payload) leaves the client untouched: nothing is relayed
or queued for it. -/
theorem C6_trickle_request_format :
    (∀ (url : String) (c : Candidate),
      sendCandidateReq url c
        = { url := url, method := "PATCH",
            contentType := "application/trickle-ice-sdpfrag",
            body := "m=audio 9 RTP/AVP 0\r\na=ice-ufrag:" ++ c.usernameFragment
                    ++ "\r\na=mid:" ++ c.sdpMid ++ "\r\na=" ++ c.candidate }) ∧
    (∀ s : MState, handleIceCandidateFromClient s none = s) := by
  constructor
  · intro url c
    simp [sendCandidateReq, String.intercalate, String.intercalate.go]
    apply String.ext
    simp [String.append_assoc]
  · intro s
    rfl

/-- Claim C9: on a 2xx response whose Link header parses to a nonempty
relay-server list while the client has zero configured relay servers,
`receiveIceServers` installs the discovered servers *before* the
`Location` check runs — so when `Location` is missing the configuration
change persists even though `sendOffer` then throws
`"Session not provided in Location header"`. -/
theorem C9_discovery_survives_fatal_throw (s : MState) (r : Response) (h : String)
    (hok : r.ok = true) (hloc : r.location = none) (hlink : r.link = some h)
    (hs : s.iceServers = []) (hp : parseLinkHeader h ≠ []) :
    (sendOfferResponse s r).iceServers = parseLinkHeader h ∧
    (sendOfferResponse s r).thrown
      = s.thrown ++ ["Session not provided in Location header"] ∧
    (sendOfferResponse s r).sessionUrl = s.sessionUrl := by
  have hne : h ≠ "" := by
    intro he
    apply hp
    rw [he]
    decide
  have hra : receiveIceServers s r.link = { s with iceServers := parseLinkHeader h } := by
    rw [hlink]
    exact receiveIceServers_applies s h hne hp hs
  simp only [sendOfferResponse, hok, Bool.not_true, Bool.false_eq_true, if_false, hra, hloc]
  refine ⟨?_, ?_, ?_⟩ <;> trivial

/-- An ok response with the C5 Link header but no `Location`. -/
def respLinkNoLocW : Response := ⟨true, none, some c5Header, "v=0 answer"⟩

theorem C9_discovery_survives_fatal_throw_witness :
    (sendOfferResponse (initState []) respLinkNoLocW).iceServers = parseLinkHeader c5Header ∧
    (sendOfferResponse (initState []) respLinkNoLocW).thrown
      = (initState []).thrown ++ ["Session not provided in Location header"] ∧
    (sendOfferResponse (initState []) respLinkNoLocW).sessionUrl
      = (initState []).sessionUrl :=
  C9_discovery_survives_fatal_throw (initState []) respLinkNoLocW c5Header
    rfl rfl rfl rfl (by decide)

/-! ### Claims about track pairing and `start` -/

/-- Claim C7: with a container configured, for the arrival order
video1(=1), video2(=2), audio(=10), video3(=3), each video with one
associated stream: after the audio notification exactly the two
pairings `[audio, video1]` and `[video2]` are materialized, in
video-arrival order; after video3 exactly the pairing `[video3]` is
added; the earlier pairings are untouched and every constructed stream
is handed to the rendering collaborator exactly once (the element trace
equals the construction trace, without duplicates). -/
theorem C7_pairing_scenario :
    (runTracks (initPairer true)
        [⟨"video", 1, 1⟩, ⟨"video", 1, 2⟩, ⟨"audio", 1, 10⟩]).videoElements
      = [[10, 1], [2]] ∧
    (runTracks (initPairer true)
        [⟨"video", 1, 1⟩, ⟨"video", 1, 2⟩, ⟨"audio", 1, 10⟩]).createdStreams
      = [[10, 1], [2]] ∧
    runTracks (initPairer true)
        [⟨"video", 1, 1⟩, ⟨"video", 1, 2⟩, ⟨"audio", 1, 10⟩, ⟨"video", 1, 3⟩]
      = { outputVideoTracks := [1, 2, 3], outputAudioTrack := some 10,
          videoElements := [[10, 1], [2], [3]], hasContainer := true,
          createdStreams := [[10, 1], [2], [3]] } := by
  decide

/-- Claim C8, counterexample: with media acquisition failed (`none`),
`DuplexClient.start` does not return `false` — it has no `return`
statement at all, resolves with `undefined` and proceeds to send the
offer anyway. -/
theorem C8_counterexample :
    duplexStart none
      = { offerSent := true, returned := none, loggedMediaError := false } ∧
    (duplexStart none).returned ≠ some false := by
  decide

/-- Claim C8, amended: when local media acquisition fails, neither
`start` throws; `WhipClient.start` logs the failure and returns `false`
without negotiating, but `DuplexClient.start` returns no failure
indicator (it resolves with `undefined`) and proceeds with the
negotiation without local tracks. -/
theorem C8_amended_start_media_failure :
    whipStart none
      = { offerSent := false, returned := some false, loggedMediaError := true } ∧
    whipStart (some ())
      = { offerSent := true, returned := some true, loggedMediaError := false } ∧
    duplexStart none
      = { offerSent := true, returned := none, loggedMediaError := false } := by
  decide

/-- Without a container the pairing loop constructs a stream for every
recorded video track and records no element. -/
theorem pairLoop_no_container (a : Nat) (videos : List Nat) :
    ∀ (l : List Nat) (s : PairerState),
      s.hasContainer = false → s.videoElements = [] →
      l.foldl (pairStep a videos) s
        = { s with createdStreams := s.createdStreams ++ l.map (grouping a videos) } := by
  intro l
  induction l with
  | nil => intro s _ _; simp
  | cons i l ih =>
    intro s hc hv
    rw [List.foldl_cons]
    rw [show pairStep a videos s i
        = { s with createdStreams := s.createdStreams ++ [grouping a videos i] } by
      simp [pairStep, hv, hc]]
    rw [ih { s with createdStreams := s.createdStreams ++ [grouping a videos i] } hc hv]
    simp [List.append_assoc]

theorem recordTracks_videoElements (s : PairerState) (ev : TrackEvent) :
    (recordTracks s ev).videoElements = s.videoElements := by
  simp only [recordTracks]
  split <;> split <;> rfl

theorem recordTracks_hasContainer (s : PairerState) (ev : TrackEvent) :
    (recordTracks s ev).hasContainer = s.hasContainer := by
  simp only [recordTracks]
  split <;> split <;> rfl

/-- Claim C10: exactly-once pairing relies on a configured container.
`videoElements` grows only inside the container branch, so with no
container the pairing condition keeps firing and every notification that
satisfies it (audio recorded, at least one recorded video) re-creates a
`MediaStream` grouping for *every* recorded video track, while
`videoElements` stays empty. -/
theorem C10_rematerialize_without_container (s : PairerState) (ev : TrackEvent) (a : Nat)
    (hc : s.hasContainer = false) (hv : s.videoElements = [])
    (ha : (recordTracks s ev).outputAudioTrack = some a)
    (hn : (recordTracks s ev).outputVideoTracks ≠ []) :
    handleGotTrack s ev
      = { recordTracks s ev with
          createdStreams := (recordTracks s ev).createdStreams
            ++ allGroupings a (recordTracks s ev).outputVideoTracks } ∧
    (handleGotTrack s ev).videoElements = [] := by
  have hc2 : (recordTracks s ev).hasContainer = false := by
    rw [recordTracks_hasContainer]; exact hc
  have hv2 : (recordTracks s ev).videoElements = [] := by
    rw [recordTracks_videoElements]; exact hv
  have hcond : (recordTracks s ev).videoElements.length
      < (recordTracks s ev).outputVideoTracks.length := by
    rw [hv2]
    simpa using List.length_pos.mpr hn
  have hmain : handleGotTrack s ev
      = runPairLoop a (recordTracks s ev).outputVideoTracks (recordTracks s ev) := by
    simp only [handleGotTrack, ha, hcond, if_true]
  rw [hmain, runPairLoop,
    pairLoop_no_container a (recordTracks s ev).outputVideoTracks
      (List.range (recordTracks s ev).outputVideoTracks.length)
      (recordTracks s ev) hc2 hv2]
  exact ⟨rfl, hv2⟩

/-- The no-container state after video 1 and audio 10 arrived. -/
def c10StateW : PairerState :=
  runTracks (initPairer false) [⟨"video", 1, 1⟩, ⟨"audio", 1, 10⟩]

theorem C10_rematerialize_without_container_witness :
    handleGotTrack c10StateW ⟨"video", 1, 2⟩
      = { recordTracks c10StateW ⟨"video", 1, 2⟩ with
          createdStreams := (recordTracks c10StateW ⟨"video", 1, 2⟩).createdStreams
            ++ allGroupings 10 (recordTracks c10StateW ⟨"video", 1, 2⟩).outputVideoTracks } ∧
    (handleGotTrack c10StateW ⟨"video", 1, 2⟩).videoElements = [] :=
  C10_rematerialize_without_container c10StateW ⟨"video", 1, 2⟩ 10
    (by decide) (by decide) (by decide) (by decide)
